import Mathlib

/-!
Verification model of `src/dashboard.py` (EDMS-Workshop-2025).

The script loads three tabular datasets, derives a total-expenditure
column on the research table, and generates an Excel workbook with three
data sheets, a lookups sheet, and two dashboard sheets holding formulas,
styling and charts.  The definitions below are a shallow embedding of the
in-memory part of that pipeline: dataframes are rectangular lists of cell
values, sheets record sequential cell writes, and formula strings are the
exact strings the script writes.  File I/O (reading the three source
files, saving the workbook) is outside the model.
-/

/-- A dataframe / spreadsheet cell value: missing (pandas `NaN` /
openpyxl empty cell `None`), a string, or a number.  Numeric cell data
is modelled as exact integers; the generator itself only ever adds cell
values, so this carries every claim faithfully while keeping the model
executable. -/
inductive Val where
  | na : Val
  | str : String → Val
  | num : Int → Val
deriving DecidableEq, Repr, Inhabited

/-- An in-memory table as produced by `pd.read_excel`: a list of column
names and a list of data rows (each row a list of cell values, column
order preserved). -/
structure DataFrame where
  cols : List String
  rows : List (List Val)
deriving DecidableEq, Repr

/-- Index of the first column with the given name (`df.columns.get_loc`
semantics; `none` models a pandas `KeyError`). -/
def colPos : List String → String → Option Nat
  | [], _ => none
  | c :: cs, n => if c = n then some 0 else (colPos cs n).map (· + 1)

/-- Cell of a row at a column index; out-of-range reads are missing. -/
def cellAt (row : List Val) (i : Nat) : Val :=
  row.getD i .na

/-- One step of a pandas row-wise sum: missing values are skipped,
numbers accumulate, a non-numeric entry is a type error (`none`). -/
def addVal : Option Int → Val → Option Int
  | none, _ => none
  | some a, .na => some a
  | some a, .num q => some (a + q)
  | some _, .str _ => none

/-- `df[cols].sum(axis=1)` for one row restricted to the column indices
`idxs`: pandas sums the numeric entries, treats missing as 0 (an
all-missing selection sums to 0), and fails on non-numeric data. -/
def rowSumAt (row : List Val) (idxs : List Nat) : Option Int :=
  (idxs.map (cellAt row)).foldl addVal (some 0)

/-- Option-valued map over a list: `some` of the list of results when
every element succeeds, `none` as soon as one fails. -/
def mapOpt (f : α → Option β) : List α → Option (List β)
  | [] => some []
  | a :: as =>
    match f a, mapOpt f as with
    | some b, some bs => some (b :: bs)
    | _, _ => none

/-- Indices of a list of named columns (`none` if any is absent). -/
def colIdxs? (df : DataFrame) (names : List String) : Option (List Nat) :=
  mapOpt (colPos df.cols) names

/-- `df[name] = vals`: pandas column assignment overwrites the column in
place when `name` already exists and appends a new last column
otherwise. -/
def DataFrame.setColumn (df : DataFrame) (name : String) (vals : List Val) : DataFrame :=
  match colPos df.cols name with
  | some i => ⟨df.cols, List.zipWith (fun r v => r.set i v) df.rows vals⟩
  | none => ⟨df.cols ++ [name], List.zipWith (fun r v => r ++ [v]) df.rows vals⟩

/-- The seven fund columns summed by the aggregator
(`dashboard.py`, lines 18-20). -/
def fundColumns : List String :=
  ["Federal Fund Sum", "Foreign Fund Sum", "Individual Fund Sum",
   "Industry Fund Sum", "Local Fund Sum", "Non-Profit Fund Sum",
   "Research Expenditures State Fund Sum"]

/-- Name of the derived column. -/
def totalColName : String := "Total Research Expenditures"

/-- The aggregator (`dashboard.py`, line 21):
`research_df[totalColName] = research_df[fund_columns].sum(axis=1)`.
`none` models an uncaught pandas error (missing fund column or
non-numeric fund data). -/
def addTotalColumn (df : DataFrame) : Option DataFrame :=
  match colIdxs? df fundColumns with
  | none => none
  | some idxs =>
    match mapOpt (fun r => rowSumAt r idxs) df.rows with
    | none => none
    | some totals => some (df.setColumn totalColName (totals.map Val.num))

/-- A dataframe is rectangular: every row has one cell per column. -/
def DataFrame.Rect (df : DataFrame) : Prop :=
  ∀ r ∈ df.rows, r.length = df.cols.length

/-- Numeric reading of a cell with missing treated as 0 (as in a pandas
skip-NA sum). -/
def valNumD : Val → Int
  | .num q => q
  | _ => 0

/-! ## Workbook model -/

/-- An openpyxl chart `Reference` area: one column `minCol`, rows
`minRow..maxRow`. -/
structure RefArea where
  minCol : Nat
  minRow : Nat
  maxRow : Nat
deriving DecidableEq, Repr, Inhabited

/-- An openpyxl `BarChart` as configured by the script: title, style,
one data reference per series, category reference, size and anchor. -/
structure Chart where
  title : String
  chStyle : Nat
  series : List RefArea
  cats : RefArea
  height : Nat
  width : Nat
  anchor : String
deriving DecidableEq, Repr, Inhabited

/-- A list-type `DataValidation`: its source-range formula and the cells
it is applied to. -/
structure DataVal where
  formula1 : String
  applied : List (Nat × Nat)
deriving DecidableEq, Repr

/-- A worksheet: its name, the sequence of cell writes (most recent
first), assigned column widths, embedded charts and data validations. -/
structure Sheet where
  name : String
  cells : List ((Nat × Nat) × Val)
  colWidths : List (Nat × Nat)
  charts : List Chart
  dvs : List DataVal
deriving DecidableEq, Repr

/-- A fresh worksheet. -/
def emptySheet (nm : String) : Sheet :=
  ⟨nm, [], [], [], []⟩

/-- `ws.cell(row=r, column=c, value=v)` / `ws[f"X{r}"] = v`. -/
def Sheet.setCell (s : Sheet) (r c : Nat) (v : Val) : Sheet :=
  { s with cells := ((r, c), v) :: s.cells }

/-- Value of a cell: the most recent write, `Val.na` (empty) if the cell
was never written. -/
def Sheet.getCell (s : Sheet) (r c : Nat) : Val :=
  match s.cells.find? (fun p => p.1 = (r, c)) with
  | some p => p.2
  | none => .na

/-- `for c_idx, value in enumerate(row, c0): sheet.cell(r, c_idx, value)`. -/
def writeRowFrom (s : Sheet) (r c : Nat) : List Val → Sheet
  | [] => s
  | v :: vs => writeRowFrom (s.setCell r c v) r (c + 1) vs

/-- `for r_idx, row in enumerate(df.itertuples(index=False), r0): ...` —
each data row written starting at column 1. -/
def writeRowsFrom (s : Sheet) (r : Nat) : List (List Val) → Sheet
  | [] => s
  | row :: rest => writeRowsFrom (writeRowFrom s r 1 row) (r + 1) rest

/-- The sheet produced for one data table (`create_data_sheets` body for
a single dataframe): rows written verbatim starting at row 1, column 1;
the dataframe's column names are never written. -/
def sheetOfTable (nm : String) (rows : List (List Val)) : Sheet :=
  writeRowsFrom (emptySheet nm) 1 rows

/-- A workbook: its sheets in creation order.  `openpyxl.Workbook()`
starts with a single default sheet named `Sheet`. -/
structure Workbook where
  sheets : List Sheet
deriving DecidableEq, Repr

def Workbook.new : Workbook :=
  ⟨[emptySheet "Sheet"]⟩

/-- `wb.create_sheet(...)` appends after the existing sheets. -/
def Workbook.addSheet (wb : Workbook) (s : Sheet) : Workbook :=
  ⟨wb.sheets ++ [s]⟩

def Workbook.sheetNames (wb : Workbook) : List String :=
  wb.sheets.map (·.name)

/-- `create_data_sheets` (lines 41-59). -/
def createDataSheets (wb : Workbook) (facultyDf degreesDf researchDf : DataFrame) : Workbook :=
  ((wb.addSheet (sheetOfTable "Faculty Data" facultyDf.rows)).addSheet
      (sheetOfTable "Degrees Data" degreesDf.rows)).addSheet
    (sheetOfTable "Research Data" researchDf.rows)

/-! ## Lookups sheet -/

/-- String content of a cell value (`none` if not a string). -/
def valStr? : Val → Option String
  | .str s => some s
  | _ => none

/-- Values of a named column (`none` models the `KeyError` on a missing
column). -/
def columnVals (df : DataFrame) (name : String) : Option (List Val) :=
  (colPos df.cols name).map (fun i => df.rows.map (fun r => cellAt r i))

/-- Python's string comparison on the code-point sequences:
lexicographic, case-sensitive. -/
def charsLe : List Char → List Char → Bool
  | [], _ => true
  | _ :: _, [] => false
  | a :: as, b :: bs =>
    if a.toNat < b.toNat then true
    else if b.toNat < a.toNat then false
    else charsLe as bs

/-- `s <= t` for Python strings (code-point lexicographic order). -/
def strLexLe (s t : String) : Bool :=
  charsLe s.data t.data

/-- `sorted(faculty_df['School Name'].unique())`: the distinct
institution names sorted ascending in Python's case-sensitive
lexicographic string order.  `none` models the `KeyError` on a missing
column or the `TypeError` Python's `sorted` raises on non-string
entries. -/
def uniqueSortedNames (df : DataFrame) : Option (List String) :=
  match columnVals df "School Name" with
  | none => none
  | some vs =>
    match mapOpt valStr? vs with
    | none => none
    | some names =>
      some ((names.dedup).insertionSort (fun a b => strLexLe a b = true))

/-- `for idx, inst in enumerate(unique_institutions, 2): lookups[f"A{idx}"] = inst`. -/
def writeNamesFrom (s : Sheet) (r : Nat) : List String → Sheet
  | [] => s
  | n :: ns => writeNamesFrom (s.setCell r 1 (.str n)) (r + 1) ns

/-- `create_lookups_sheet` (lines 61-68) applied to the already-extracted
sorted institution list. -/
def lookupsSheetOf (names : List String) : Sheet :=
  writeNamesFrom ((emptySheet "Lookups").setCell 1 1 (.str "Valid Institutions")) 2 names

/-! ## Dashboard formula strings

These are the exact strings the script writes; `\x27` is the single
quote around sheet names. -/

/-- `'Sheet Name'!X:X` — a whole-column reference. -/
def colRangeRef (sheet col : String) : String :=
  "\x27" ++ sheet ++ "\x27!" ++ col ++ ":" ++ col

/-- `SUMIFS('S'!X:X,'S'!Y:Y,$A{row})` — sum of column `sumCol` of sheet
`sheet` over the rows whose `critCol` cell matches the institution cell
`$A{row}` of the dashboard. -/
def sumifsStr (sheet sumCol critCol : String) (row : Nat) : String :=
  "SUMIFS(" ++ colRangeRef sheet sumCol ++ "," ++ colRangeRef sheet critCol ++
    ",$A" ++ toString row ++ ")"

/-- Total-faculty formula (lines 183-187 and 197-201). -/
def totalFacultyStr (row : Nat) : String :=
  "=" ++ sumifsStr "Faculty Data" "D" "B" row ++ " + " ++
    sumifsStr "Faculty Data" "E" "B" row ++ " + " ++
    sumifsStr "Faculty Data" "F" "B" row

/-- Faculty:Bachelors ratio formula (line 190). -/
def acadRatioBStr (row : Nat) : String :=
  "=IFERROR(B" ++ toString row ++ "/" ++ sumifsStr "Degrees Data" "E" "C" row ++ ",0)"

/-- Faculty:Masters ratio formula (line 191). -/
def acadRatioMStr (row : Nat) : String :=
  "=IFERROR(B" ++ toString row ++ "/" ++ sumifsStr "Degrees Data" "F" "C" row ++ ",0)"

/-- Faculty:Doctoral ratio formula (line 192). -/
def acadRatioDStr (row : Nat) : String :=
  "=IFERROR(B" ++ toString row ++ "/" ++ sumifsStr "Degrees Data" "G" "C" row ++ ",0)"

/-- Total-research-expenditures formula (lines 204-212). -/
def resTotalStr (row : Nat) : String :=
  "=" ++ sumifsStr "Research Data" "D" "C" row ++ " + " ++
    sumifsStr "Research Data" "E" "C" row ++ " + " ++
    sumifsStr "Research Data" "F" "C" row ++ " + " ++
    sumifsStr "Research Data" "G" "C" row ++ " + " ++
    sumifsStr "Research Data" "H" "C" row ++ " + " ++
    sumifsStr "Research Data" "I" "C" row ++ " + " ++
    sumifsStr "Research Data" "J" "C" row

/-- Research-dollars-per-faculty formula (line 215). -/
def resPerFacStr (row : Nat) : String :=
  "=IFERROR(C" ++ toString row ++ "/B" ++ toString row ++ ",0)"

/-! ## Dashboard builders -/

/-- `add_institution_academic_formulas` (lines 180-192): columns B-E of
one metrics row. -/
def addInstitutionAcademicFormulas (s : Sheet) (row : Nat) : Sheet :=
  (((s.setCell row 2 (.str (totalFacultyStr row))).setCell row 3
        (.str (acadRatioBStr row))).setCell row 4
      (.str (acadRatioMStr row))).setCell row 5
    (.str (acadRatioDStr row))

/-- `add_institution_research_formulas` (lines 194-215): columns B-D of
one metrics row. -/
def addInstitutionResearchFormulas (s : Sheet) (row : Nat) : Sheet :=
  ((s.setCell row 2 (.str (totalFacultyStr row))).setCell row 3
      (.str (resTotalStr row))).setCell row 4
    (.str (resPerFacStr row))

/-- `add_academic_formulas` (lines 150-163): the primary row at
`start_row+2` references selector `B2`; comparison rows `start_row+3+i`
reference selectors `B{i+5}`. -/
def addAcademicFormulas (s : Sheet) (startRow : Nat) : Sheet :=
  let s1 := addInstitutionAcademicFormulas
    (s.setCell (startRow + 2) 1 (.str "=B2")) (startRow + 2)
  (List.range 5).foldl (fun acc i =>
    addInstitutionAcademicFormulas
      (acc.setCell (startRow + 3 + i) 1 (.str ("=B" ++ toString (i + 5))))
      (startRow + 3 + i)) s1

/-- `add_research_formulas` (lines 165-178). -/
def addResearchFormulas (s : Sheet) (startRow : Nat) : Sheet :=
  let s1 := addInstitutionResearchFormulas
    (s.setCell (startRow + 2) 1 (.str "=B2")) (startRow + 2)
  (List.range 5).foldl (fun acc i =>
    addInstitutionResearchFormulas
      (acc.setCell (startRow + 3 + i) 1 (.str ("=B" ++ toString (i + 5))))
      (startRow + 3 + i)) s1

/-- `str(cell.value)` as used by the width auto-sizer: an empty cell
reads as `None`. -/
def pyStr : Val → String
  | .na => "None"
  | .str s => s
  | .num q => toString q

/-- Largest row index of any written cell. -/
def Sheet.maxRowIdx (s : Sheet) : Nat :=
  (s.cells.map (fun p => p.1.1)).foldl max 0

/-- Largest column index of any written cell. -/
def Sheet.maxColIdx (s : Sheet) : Nat :=
  (s.cells.map (fun p => p.1.2)).foldl max 0

/-- `max(len(str(cell.value)) for cell in col)` over the used rows of
column `c` (the dashboards always populate `A1`, so the used range
starts at row 1, column 1). -/
def colMaxLen (s : Sheet) (c : Nat) : Nat :=
  ((List.range' 1 s.maxRowIdx).map (fun r => (pyStr (s.getCell r c)).length)).foldl max 0

/-- `style_dashboard` (lines 217-244).  Fonts, borders and alignment
change no cell value and no width and are not modelled; the width loop
assigns `max_length + 2` to every used column. -/
def styleDashboard (s : Sheet) (_startRow _numColumns : Nat) : Sheet :=
  { s with colWidths := (List.range' 1 s.maxColIdx).map (fun c => (c, colMaxLen s c + 2)) }

/-- `create_academic_chart` (lines 246-267): one series per column in
`range(3, 6)`, rows `start_row+1..start_row+7` with the header row as
series title, categories from column 1 rows `start_row+2..start_row+7`,
anchored at `G2`. -/
def createAcademicChart (s : Sheet) (startRow : Nat) : Sheet :=
  { s with charts := s.charts ++
      [⟨"Faculty to Degree Ratios by Institution", 10,
        (List.range' 3 3).map (fun c => ⟨c, startRow + 1, startRow + 7⟩),
        ⟨1, startRow + 2, startRow + 7⟩, 15, 25, "G2"⟩] }

/-- `create_research_chart` (lines 269-289): a single series from
column 4. -/
def createResearchChart (s : Sheet) (startRow : Nat) : Sheet :=
  { s with charts := s.charts ++
      [⟨"Research Dollars per Faculty by Institution", 10,
        [⟨4, startRow + 1, startRow + 7⟩],
        ⟨1, startRow + 2, startRow + 7⟩, 15, 25, "G2"⟩] }

/-- Header labels of the academic metrics table (line 97). -/
def acadHeaders : List String :=
  ["Institution", "Total Faculty", "Faculty:Bachelors", "Faculty:Masters", "Faculty:Doctoral"]

/-- Header labels of the research metrics table (line 137). -/
def resHeaders : List String :=
  ["Institution", "Total Faculty", "Total Research Expenditures", "Research $ per Faculty"]

/-- The selector data validation shared by both dashboards: list source
`Lookups!$A$2:$A${N+1}`, applied to `B2` and `B5..B9`.  (`dv.add` only
mutates the validation object, so the interleaving with the label loop
is immaterial.) -/
def selectorDv (us : List String) : DataVal :=
  ⟨"=Lookups!$A$2:$A$" ++ toString (us.length + 1),
    (2, 2) :: (List.range 5).map (fun i => (i + 5, 2))⟩

/-- `create_academic_dashboard` (lines 70-108), with
`metrics_start_row = 12`. -/
def createAcademicDashboard (us : List String) : Sheet :=
  let s1 := (((emptySheet "Academic Dashboard").setCell 1 1
      (.str "Academic Metrics Dashboard")).setCell 2 1
      (.str "Primary Institution:")).setCell 4 1 (.str "Comparison Institutions:")
  let s2 := { s1 with dvs := s1.dvs ++ [selectorDv us] }
  let s3 := (List.range 5).foldl (fun acc i =>
    acc.setCell (i + 5) 1 (.str ("Institution " ++ toString (i + 1)))) s2
  let s4 := s3.setCell 12 1 (.str "Metrics Summary")
  let s5 := writeRowFrom s4 13 1 (acadHeaders.map Val.str)
  let s6 := addAcademicFormulas s5 12
  let s7 := styleDashboard s6 12 acadHeaders.length
  createAcademicChart s7 12

/-- `create_research_dashboard` (lines 110-148), with
`metrics_start_row = 12`. -/
def createResearchDashboard (us : List String) : Sheet :=
  let s1 := (((emptySheet "Research Dashboard").setCell 1 1
      (.str "Research Metrics Dashboard")).setCell 2 1
      (.str "Primary Institution:")).setCell 4 1 (.str "Comparison Institutions:")
  let s2 := { s1 with dvs := s1.dvs ++ [selectorDv us] }
  let s3 := (List.range 5).foldl (fun acc i =>
    acc.setCell (i + 5) 1 (.str ("Institution " ++ toString (i + 1)))) s2
  let s4 := s3.setCell 12 1 (.str "Metrics Summary")
  let s5 := writeRowFrom s4 13 1 (resHeaders.map Val.str)
  let s6 := addResearchFormulas s5 12
  let s7 := styleDashboard s6 12 resHeaders.length
  createResearchChart s7 12

/-- `create_dashboard_workbook` (lines 8-39) after the three input
tables are in memory: aggregate, create the workbook (with its default
`Sheet`), add the three data sheets, the lookups sheet and the two
dashboards.  `none` models an uncaught generation-time error. -/
def createDashboardWorkbook (facultyDf degreesDf researchDf : DataFrame) : Option Workbook :=
  match addTotalColumn researchDf with
  | none => none
  | some researchDf2 =>
    let wb := createDataSheets Workbook.new facultyDf degreesDf researchDf2
    match uniqueSortedNames facultyDf with
    | none => none
    | some us =>
      some (((wb.addSheet (lookupsSheetOf us)).addSheet
          (createAcademicDashboard us)).addSheet (createResearchDashboard us))

/-! ## Generated-formula syntax and spreadsheet semantics -/

/-- Abstract syntax of the formulas the script generates.  `cellRef c r`
is a same-sheet reference like `B14`; `selRef r` is the absolute
institution reference `$A{r}`; `sumifs sheet sumCol critCol crit` is
`SUMIFS('sheet'!sumCol:sumCol,'sheet'!critCol:critCol,crit)`. -/
inductive Fx where
  | cellRef : String → Nat → Fx
  | selRef : Nat → Fx
  | sumifs : String → String → String → Fx → Fx
  | add : Fx → Fx → Fx
  | div : Fx → Fx → Fx
  | iferror : Fx → ℚ → Fx
deriving DecidableEq, Repr

/-- Formula text of an `Fx`, without the leading `=`. -/
def render : Fx → String
  | .cellRef c r => c ++ toString r
  | .selRef r => "$A" ++ toString r
  | .sumifs sh sc cc crit =>
    "SUMIFS(" ++ colRangeRef sh sc ++ "," ++ colRangeRef sh cc ++ "," ++ render crit ++ ")"
  | .add a b => render a ++ " + " ++ render b
  | .div a b => render a ++ "/" ++ render b
  | .iferror a d => "IFERROR(" ++ render a ++ "," ++ toString d ++ ")"

/-- An evaluated spreadsheet value: a number or a text. -/
inductive Exv where
  | num : ℚ → Exv
  | str : String → Exv
deriving DecidableEq, Repr

/-- Modelled from the spec: the state a spreadsheet engine evaluates a
dashboard formula in — `dataCol sheet col` is the cell column
`'sheet'!col:col` of a data sheet, and `dashCell col row` is the
engine's value for the dashboard cell `{col}{row}` (an `Except` error
models an Excel error value).  The repository never evaluates formulas
itself; this models the engine that opens the workbook. -/
structure EvEnv where
  dataCol : String → String → List Val
  dashCell : String → Nat → Except Unit Exv

/-- Numeric reading of a data cell by the engine (non-numbers
accumulate as 0 in `SUMIFS`). -/
def valNumQ : Val → ℚ
  | .num q => (q : ℚ)
  | _ => 0

/-- `SUMIFS` criterion match of a data cell against an evaluated
criterion value. -/
def valMatches (v : Val) (crit : Exv) : Bool :=
  match v, crit with
  | .str s, .str t => s = t
  | .num a, .num b => a = b
  | _, _ => false

/-- Modelled from the spec: `SUMIFS` value — sum of the numeric `sumCol`
entries at the positions whose `critCol` entry matches the criterion
(zero matching rows sum to 0). -/
def sumifsVal (critCol sumCol : List Val) (crit : Exv) : ℚ :=
  ((critCol.zip sumCol).filter (fun p => valMatches p.1 crit)).foldl
    (fun a p => a + valNumQ p.2) 0

/-- Modelled from the spec: spreadsheet-engine evaluation of a generated
formula.  Arithmetic on non-numbers and division by zero produce an
error value; `IFERROR` replaces an error by its fallback. -/
def evalFx (env : EvEnv) : Fx → Except Unit Exv
  | .cellRef c r => env.dashCell c r
  | .selRef r => env.dashCell "A" r
  | .sumifs sh sc cc crit =>
    match evalFx env crit with
    | .error e => .error e
    | .ok v => .ok (.num (sumifsVal (env.dataCol sh cc) (env.dataCol sh sc) v))
  | .add a b =>
    match evalFx env a, evalFx env b with
    | .ok (.num x), .ok (.num y) => .ok (.num (x + y))
    | .error e, _ => .error e
    | _, .error e => .error e
    | _, _ => .error ()
  | .div a b =>
    match evalFx env a, evalFx env b with
    | .ok (.num x), .ok (.num y) => if y = 0 then .error () else .ok (.num (x / y))
    | .error e, _ => .error e
    | _, .error e => .error e
    | _, _ => .error ()
  | .iferror a d =>
    match evalFx env a with
    | .error _ => .ok (.num d)
    | .ok v => .ok v

/-- Syntax of the total-faculty formula written to `B{r}`. -/
def totalFacultyFx (r : Nat) : Fx :=
  .add (.add (.sumifs "Faculty Data" "D" "B" (.selRef r))
      (.sumifs "Faculty Data" "E" "B" (.selRef r)))
    (.sumifs "Faculty Data" "F" "B" (.selRef r))

/-- Syntax of the Faculty:Bachelors formula written to `C{r}` of the
academic dashboard. -/
def acadRatioBFx (r : Nat) : Fx :=
  .iferror (.div (.cellRef "B" r) (.sumifs "Degrees Data" "E" "C" (.selRef r))) 0

/-- Syntax of the Faculty:Masters formula written to `D{r}` of the
academic dashboard. -/
def acadRatioMFx (r : Nat) : Fx :=
  .iferror (.div (.cellRef "B" r) (.sumifs "Degrees Data" "F" "C" (.selRef r))) 0

/-- Syntax of the Faculty:Doctoral formula written to `E{r}` of the
academic dashboard. -/
def acadRatioDFx (r : Nat) : Fx :=
  .iferror (.div (.cellRef "B" r) (.sumifs "Degrees Data" "G" "C" (.selRef r))) 0

/-- Syntax of the total-research-expenditures formula written to `C{r}`
of the research dashboard. -/
def resTotalFx (r : Nat) : Fx :=
  .add (.add (.add (.add (.add (.add (.sumifs "Research Data" "D" "C" (.selRef r))
      (.sumifs "Research Data" "E" "C" (.selRef r)))
      (.sumifs "Research Data" "F" "C" (.selRef r)))
      (.sumifs "Research Data" "G" "C" (.selRef r)))
      (.sumifs "Research Data" "H" "C" (.selRef r)))
      (.sumifs "Research Data" "I" "C" (.selRef r)))
    (.sumifs "Research Data" "J" "C" (.selRef r))

/-- Syntax of the research-dollars-per-faculty formula written to `D{r}`
of the research dashboard. -/
def resPerFacFx (r : Nat) : Fx :=
  .iferror (.div (.cellRef "C" r) (.cellRef "B" r)) 0

/-! ## Concrete test data -/

/-- A small faculty table (school name in the second column, as the
`'Faculty Data'!B:B` formula references expect). -/
def facTestDf : DataFrame :=
  ⟨["Year", "School Name", "Campus", "Prof Count", "Assoc Count", "Asst Count"],
   [[.num 2023, .str "A U", .str "Main", .num 1, .num 2, .num 3],
    [.num 2023, .str "B U", .str "Main", .num 4, .num 5, .num 6]]⟩

/-- A small degrees table. -/
def degTestDf : DataFrame :=
  ⟨["Inst"], [[.str "A U"]]⟩

/-- A small research table with all seven fund columns populated. -/
def resTestDf : DataFrame :=
  ⟨"Institution" :: fundColumns,
   [[.str "A U", .num 1, .num 2, .num 3, .num 4, .num 5, .num 6, .num 7]]⟩

/-- `resTestDf` after aggregation: the derived column appended with the
sum 28. -/
def resTestDfTot : DataFrame :=
  ⟨("Institution" :: fundColumns) ++ [totalColName],
   [[.str "A U", .num 1, .num 2, .num 3, .num 4, .num 5, .num 6, .num 7, .num 28]]⟩

/-- A research table with missing fund values: row one has a single
present fund value 2, row two has all seven missing. -/
def resNaTestDf : DataFrame :=
  ⟨"Institution" :: fundColumns,
   [[.str "A U", .na, .num 2, .na, .na, .na, .na, .na],
    [.str "B U", .na, .na, .na, .na, .na, .na, .na]]⟩

/-- The fund-column indices in `resTestDf` / `resNaTestDf`. -/
def fundIdxsTest : List Nat := [1, 2, 3, 4, 5, 6, 7]

/-- An engine state for a dashboard whose selector holds the institution
`"Z U"`, absent from the (empty) data sheets; the dependent metric cells
hold value 0. -/
def testEnv : EvEnv :=
  ⟨fun _ _ => [],
   fun c r => if c = "A" ∧ r = 14 then .ok (.str "Z U") else .ok (.num 0)⟩

/-! ## Basic lemmas about the dataframe operations -/

theorem mapOpt_eq_some_iff (f : α → Option β) (l : List α) (l' : List β) :
    mapOpt f l = some l' ↔ List.Forall₂ (fun a b => f a = some b) l l' := by
  induction l generalizing l' with
  | nil => cases l' <;> simp [mapOpt, List.forall₂_nil_left_iff]
  | cons a as ih =>
    rw [List.forall₂_cons_left_iff]
    cases hf : f a with
    | none =>
      simp only [mapOpt, hf]
      constructor
      · intro h; cases hm : mapOpt f as <;> simp [hm] at h
      · rintro ⟨b, l'', hab, -, rfl⟩
        cases hab
    | some b =>
      cases hm : mapOpt f as with
      | none =>
        simp only [mapOpt, hf, hm]
        constructor
        · intro h; cases h
        · rintro ⟨b', l'', hab, htl, rfl⟩
          rw [(ih _).mpr htl] at hm; cases hm
      | some bs =>
        simp only [mapOpt, hf, hm]
        constructor
        · intro h
          injection h with h
          exact ⟨b, bs, rfl, (ih _).mp hm, h.symm⟩
        · rintro ⟨b', l'', hab, htl, rfl⟩
          injection hab with hab
          rw [(ih _).mpr htl] at hm; injection hm with hm
          rw [hab, hm]

theorem mapOpt_congr (f g : α → Option β) (l : List α) (h : ∀ a ∈ l, f a = g a) :
    mapOpt f l = mapOpt g l := by
  induction l with
  | nil => rfl
  | cons a as ih =>
    rw [mapOpt, mapOpt, h a (by simp), ih (fun a ha => h a (by simp [ha]))]

theorem colPos_lt (cols : List String) (n : String) (i : Nat)
    (h : colPos cols n = some i) : i < cols.length := by
  induction cols generalizing i with
  | nil => cases h
  | cons c cs ih =>
    rw [colPos] at h
    by_cases hc : c = n
    · rw [if_pos hc] at h
      injection h with h
      simp [← h]
    · rw [if_neg hc] at h
      cases hm : colPos cs n with
      | none => rw [hm] at h; cases h
      | some j =>
        simp only [hm, Option.map_some'] at h
        injection h with h
        have := ih j hm
        simp only [List.length_cons]
        omega

theorem colPos_getD (cols : List String) (n : String) (i : Nat)
    (h : colPos cols n = some i) : cols.getD i "" = n := by
  induction cols generalizing i with
  | nil => cases h
  | cons c cs ih =>
    rw [colPos] at h
    by_cases hc : c = n
    · rw [if_pos hc] at h
      injection h with h
      rw [← h, List.getD_cons_zero, hc]
    · rw [if_neg hc] at h
      cases hm : colPos cs n with
      | none => rw [hm] at h; cases h
      | some j =>
        rw [hm] at h
        injection h with h
        rw [← h, List.getD_cons_succ]
        exact ih j hm

theorem colPos_none_iff (cols : List String) (n : String) :
    colPos cols n = none ↔ n ∉ cols := by
  induction cols with
  | nil => simp [colPos]
  | cons c cs ih =>
    rw [colPos, List.mem_cons]
    by_cases hc : c = n
    · simp [hc]
    · rw [if_neg hc]
      rw [Option.map_eq_none', ih]
      constructor
      · intro h hmem
        rcases hmem with h1 | h1
        · exact hc h1.symm
        · exact h h1
      · intro h hmem
        exact h (Or.inr hmem)

theorem colPos_append_of_some (cols l : List String) (n : String) (i : Nat)
    (h : colPos cols n = some i) : colPos (cols ++ l) n = some i := by
  induction cols generalizing i with
  | nil => cases h
  | cons c cs ih =>
    rw [colPos] at h
    rw [List.cons_append, colPos]
    by_cases hc : c = n
    · rwa [if_pos hc] at h ⊢
    · rw [if_neg hc] at h ⊢
      cases hm : colPos cs n with
      | none => rw [hm] at h; cases h
      | some j => rw [ih j hm]; rw [hm] at h; exact h

theorem colPos_append_self (cols : List String) (n : String) (h : n ∉ cols) :
    colPos (cols ++ [n]) n = some cols.length := by
  induction cols with
  | nil => simp [colPos]
  | cons c cs ih =>
    rw [List.cons_append, colPos]
    have hc : c ≠ n := fun hcn => h (by simp [hcn])
    rw [if_neg hc, ih (fun hmem => h (by simp [hmem]))]
    rfl

theorem foldl_addVal_num (vs : List Val) (a : Int)
    (h : ∀ v ∈ vs, v = .na ∨ ∃ q, v = .num q) :
    vs.foldl addVal (some a) = some (a + (vs.map valNumD).sum) := by
  induction vs generalizing a with
  | nil => simp
  | cons v vs ih =>
    rcases h v (by simp) with hv | ⟨q, hv⟩ <;> subst hv <;>
      rw [List.foldl_cons] <;>
      rw [show ∀ b : Val, addVal (some a) b = addVal (some a) b from fun _ => rfl] <;>
      simp only [addVal, List.map_cons, List.sum_cons, valNumD] <;>
      rw [ih _ (fun v hv => h v (by simp [hv]))] <;> ring_nf

theorem rowSumAt_eq (row : List Val) (idxs : List Nat)
    (h : ∀ i ∈ idxs, cellAt row i = .na ∨ ∃ q, cellAt row i = .num q) :
    rowSumAt row idxs = some ((idxs.map (fun i => valNumD (cellAt row i))).sum) := by
  unfold rowSumAt
  rw [foldl_addVal_num]
  · rw [List.map_map, zero_add]
    rfl
  · intro v hv
    rw [List.mem_map] at hv
    obtain ⟨i, hi, rfl⟩ := hv
    exact h i hi

theorem rowSumAt_congr (row row' : List Val) (idxs : List Nat)
    (h : ∀ i ∈ idxs, cellAt row' i = cellAt row i) :
    rowSumAt row' idxs = rowSumAt row idxs := by
  unfold rowSumAt
  congr 1
  exact List.map_congr_left h

/-- Shared shape of the aggregator result: when the seven fund columns
exist at indices `idxs`, every fund cell is numeric or missing, and the
derived column is not yet present, the aggregator appends the derived
column, whose value per row is the sum of the numeric fund cells
(missing read as 0). -/
theorem addTotalColumn_eq_append (df : DataFrame) (idxs : List Nat)
    (hidx : colIdxs? df fundColumns = some idxs)
    (hvals : ∀ r ∈ df.rows, ∀ i ∈ idxs, cellAt r i = .na ∨ ∃ q, cellAt r i = .num q)
    (hfresh : totalColName ∉ df.cols) :
    addTotalColumn df =
      some ⟨df.cols ++ [totalColName],
        df.rows.map (fun r =>
          r ++ [Val.num ((idxs.map (fun i => valNumD (cellAt r i))).sum)])⟩ := by
  have hmap : mapOpt (fun r => rowSumAt r idxs) df.rows =
      some (df.rows.map (fun r => (idxs.map (fun i => valNumD (cellAt r i))).sum)) := by
    rw [mapOpt_eq_some_iff, List.forall₂_map_right_iff]
    rw [List.forall₂_same]
    intro r hr
    exact rowSumAt_eq r idxs (hvals r hr)
  simp only [addTotalColumn, hidx, hmap]
  unfold DataFrame.setColumn
  rw [(colPos_none_iff _ _).mpr hfresh]
  rw [List.map_map, List.zipWith_map_right, List.zipWith_same]
  rfl

/-- C1: for every row of the research table, the derived
`Total Research Expenditures` field equals the exact sum of the seven
named fund fields of that row; the new field is appended as one extra
(last) column, and the rows are mapped in place, so the row order of the
table is unchanged. -/
theorem research_total_column_spec (df : DataFrame) (idxs : List Nat)
    (hidx : colIdxs? df fundColumns = some idxs)
    (hnum : ∀ r ∈ df.rows, ∀ i ∈ idxs, ∃ q, cellAt r i = .num q)
    (hfresh : totalColName ∉ df.cols) :
    addTotalColumn df =
      some ⟨df.cols ++ [totalColName],
        df.rows.map (fun r =>
          r ++ [Val.num ((idxs.map (fun i => valNumD (cellAt r i))).sum)])⟩ :=
  addTotalColumn_eq_append df idxs hidx
    (fun r hr i hi => Or.inr (hnum r hr i hi)) hfresh

/-- Witness for C1 at a concrete one-row research table. -/
theorem research_total_column_spec_witness :
    (colIdxs? resTestDf fundColumns = some fundIdxsTest ∧
      (∀ r ∈ resTestDf.rows, ∀ i ∈ fundIdxsTest, ∃ q, cellAt r i = .num q) ∧
      totalColName ∉ resTestDf.cols) ∧
    addTotalColumn resTestDf =
      some ⟨resTestDf.cols ++ [totalColName],
        resTestDf.rows.map (fun r =>
          r ++ [Val.num ((fundIdxsTest.map (fun i => valNumD (cellAt r i))).sum)])⟩ :=
  ⟨⟨by decide,
      by rintro r hr i hi; fin_cases hr <;> fin_cases hi <;> exact ⟨_, rfl⟩,
      by decide⟩,
    research_total_column_spec resTestDf fundIdxsTest (by decide)
      (by rintro r hr i hi; fin_cases hr <;> fin_cases hi <;> exact ⟨_, rfl⟩)
      (by decide)⟩

/-- C10: a research row with missing fund values does not make the
aggregator fail — the derived total is the sum of the present fund
values (missing contribute 0), and a row whose seven fund cells are all
missing gets total 0. -/
theorem missing_fund_values_total (df : DataFrame) (idxs : List Nat)
    (hidx : colIdxs? df fundColumns = some idxs)
    (hvals : ∀ r ∈ df.rows, ∀ i ∈ idxs, cellAt r i = .na ∨ ∃ q, cellAt r i = .num q)
    (hfresh : totalColName ∉ df.cols) :
    addTotalColumn df =
      some ⟨df.cols ++ [totalColName],
        df.rows.map (fun r =>
          r ++ [Val.num ((idxs.map (fun i => valNumD (cellAt r i))).sum)])⟩ ∧
    ∀ r ∈ df.rows, (∀ i ∈ idxs, cellAt r i = .na) →
      (idxs.map (fun i => valNumD (cellAt r i))).sum = 0 := by
  refine ⟨addTotalColumn_eq_append df idxs hidx hvals hfresh, ?_⟩
  intro r _ hmiss
  have hz : idxs.map (fun i => valNumD (cellAt r i)) = idxs.map (fun _ => (0 : Int)) :=
    List.map_congr_left (fun i hi => by rw [hmiss i hi]; rfl)
  rw [hz]
  simp

/-- Witness for C10 at a table whose first row has one present fund
value and whose second row has all seven missing. -/
theorem missing_fund_values_total_witness :
    (colIdxs? resNaTestDf fundColumns = some fundIdxsTest ∧
      (∀ r ∈ resNaTestDf.rows, ∀ i ∈ fundIdxsTest,
        cellAt r i = .na ∨ ∃ q, cellAt r i = .num q) ∧
      totalColName ∉ resNaTestDf.cols) ∧
    (addTotalColumn resNaTestDf =
      some ⟨resNaTestDf.cols ++ [totalColName],
        resNaTestDf.rows.map (fun r =>
          r ++ [Val.num ((fundIdxsTest.map (fun i => valNumD (cellAt r i))).sum)])⟩ ∧
      ∀ r ∈ resNaTestDf.rows, (∀ i ∈ fundIdxsTest, cellAt r i = .na) →
        (fundIdxsTest.map (fun i => valNumD (cellAt r i))).sum = 0) :=
  ⟨⟨by decide,
      by
        rintro r hr i hi
        fin_cases hr <;> fin_cases hi <;>
          first
          | exact Or.inl rfl
          | exact Or.inr ⟨_, rfl⟩,
      by decide⟩,
    missing_fund_values_total resNaTestDf fundIdxsTest (by decide)
      (by
        rintro r hr i hi
        fin_cases hr <;> fin_cases hi <;>
          first
          | exact Or.inl rfl
          | exact Or.inr ⟨_, rfl⟩)
      (by decide)⟩

/-! ## Idempotence of the aggregator -/

theorem forall₂_mem_right {R : α → β → Prop} {l : List α} {l' : List β}
    (h : List.Forall₂ R l l') : ∀ b ∈ l', ∃ a ∈ l, R a b := by
  induction h with
  | nil => intro b hb; cases hb
  | cons hab htl ih =>
    intro b hb
    rcases List.mem_cons.mp hb with rfl | hb
    · exact ⟨_, by simp, hab⟩
    · obtain ⟨a, ha, hr⟩ := ih b hb
      exact ⟨a, by simp [ha], hr⟩

theorem cellAt_set_ne (r : List Val) (k i : Nat) (v : Val) (h : k ≠ i) :
    cellAt (r.set k v) i = cellAt r i := by
  simp [cellAt, List.getD, List.getElem?_set_ne h]

theorem cellAt_append_lt (r l : List Val) (i : Nat) (h : i < r.length) :
    cellAt (r ++ l) i = cellAt r i := by
  unfold cellAt
  exact List.getD_append _ _ _ _ h

theorem set_append_len (r : List α) (v w : α) :
    (r ++ [v]).set r.length w = r ++ [w] := by
  induction r with
  | nil => rfl
  | cons a as ih => simp [List.set_cons_succ, ih]

/-- Every fund column has a name different from the derived column. -/
theorem fund_ne_total : ∀ f ∈ fundColumns, f ≠ totalColName := by decide

/-- Destructor for a successful aggregation. -/
theorem addTotalColumn_some_elim (df df' : DataFrame)
    (e : addTotalColumn df = some df') :
    ∃ idxs totals, colIdxs? df fundColumns = some idxs ∧
      mapOpt (fun r => rowSumAt r idxs) df.rows = some totals ∧
      df' = df.setColumn totalColName (totals.map Val.num) := by
  unfold addTotalColumn at e
  cases h1 : colIdxs? df fundColumns with
  | none => simp only [h1] at e; exact Option.noConfusion e
  | some idxs =>
    simp only [h1] at e
    cases h2 : mapOpt (fun r => rowSumAt r idxs) df.rows with
    | none => simp only [h2] at e; exact Option.noConfusion e
    | some totals =>
      simp only [h2, Option.some.injEq] at e
      exact ⟨idxs, totals, rfl, h2, e.symm⟩

/-- The fund indices point into the columns and never at the derived
column's name. -/
theorem fund_idxs_facts (df : DataFrame) (idxs : List Nat)
    (h : colIdxs? df fundColumns = some idxs) :
    ∀ i ∈ idxs, i < df.cols.length ∧ df.cols.getD i "" ≠ totalColName := by
  rw [colIdxs?, mapOpt_eq_some_iff] at h
  intro i hi
  obtain ⟨f, hf, hpos⟩ := forall₂_mem_right h i hi
  refine ⟨colPos_lt _ _ _ hpos, ?_⟩
  rw [colPos_getD _ _ _ hpos]
  exact fund_ne_total f hf

theorem forall₂_rowSum_set (idxs : List Nat) (k : Nat)
    (hk : ∀ i ∈ idxs, k ≠ i) :
    ∀ (rs : List (List Val)) (ts : List Int),
      List.Forall₂ (fun r t => rowSumAt r idxs = some t) rs ts →
      List.Forall₂ (fun r t => rowSumAt r idxs = some t)
        (List.zipWith (fun r v => r.set k v) rs (ts.map Val.num)) ts := by
  intro rs ts h
  induction h with
  | nil => simp
  | cons hab htl ih =>
    simp only [List.map_cons, List.zipWith_cons_cons]
    refine List.Forall₂.cons ?_ ih
    rw [rowSumAt_congr _ _ _ (fun i hi => cellAt_set_ne _ _ _ _ (hk i hi))]
    exact hab

theorem forall₂_rowSum_append (idxs : List Nat) (k : Nat)
    (hidx : ∀ i ∈ idxs, i < k) :
    ∀ (rs : List (List Val)) (ts : List Int), (∀ r ∈ rs, r.length = k) →
      List.Forall₂ (fun r t => rowSumAt r idxs = some t) rs ts →
      List.Forall₂ (fun r t => rowSumAt r idxs = some t)
        (List.zipWith (fun r v => r ++ [v]) rs (ts.map Val.num)) ts := by
  intro rs ts hlen h
  induction h with
  | nil => simp
  | @cons r t rs' ts' hab htl ih =>
    simp only [List.map_cons, List.zipWith_cons_cons]
    refine List.Forall₂.cons ?_ (ih (fun r hr => hlen r (by simp [hr])))
    have hr : r.length = k := hlen r (by simp)
    rw [rowSumAt_congr _ _ _
      (fun i hi => cellAt_append_lt _ _ _ (by rw [hr]; exact hidx i hi))]
    exact hab

theorem zipWith_set_set (k : Nat) :
    ∀ (rs : List (List Val)) (m : List Val),
      List.zipWith (fun r v => r.set k v)
        (List.zipWith (fun r v => r.set k v) rs m) m =
      List.zipWith (fun r v => r.set k v) rs m := by
  intro rs
  induction rs with
  | nil => intro m; simp
  | cons r rs ih =>
    intro m
    cases m with
    | nil => simp
    | cons v vs => simp [List.zipWith_cons_cons, List.set_set, ih]

theorem zipWith_append_set (k : Nat) :
    ∀ (rs : List (List Val)) (m : List Val), (∀ r ∈ rs, r.length = k) →
      List.zipWith (fun r v => r.set k v)
        (List.zipWith (fun r v => r ++ [v]) rs m) m =
      List.zipWith (fun r v => r ++ [v]) rs m := by
  intro rs
  induction rs with
  | nil => intro m _; simp
  | cons r rs ih =>
    intro m hlen
    cases m with
    | nil => simp
    | cons v vs =>
      have hr : r.length = k := hlen r (by simp)
      simp only [List.zipWith_cons_cons]
      have hhead : (r ++ [v]).set k v = r ++ [v] := by rw [← hr, set_append_len]
      rw [hhead, ih vs (fun r hr => hlen r (by simp [hr]))]

/-- C3 counterexample: re-applying the aggregator to the research table
that already carries the derived `Total Research Expenditures` column
overwrites that column with the same values and leaves the table
unchanged — it does not append a second total field. -/
theorem aggregator_double_append_refuted :
    addTotalColumn resTestDf = some resTestDfTot ∧
    addTotalColumn resTestDfTot = some resTestDfTot ∧
    resTestDfTot.cols.count totalColName = 1 := by decide

/-- C3 (amended): the aggregator is idempotent on any rectangular table
it succeeds on — pandas column assignment overwrites an existing
`Total Research Expenditures` column in place with the same sums, so a
second application returns the table unchanged (no double-append). -/
theorem aggregator_idempotent (df df' : DataFrame)
    (hrect : DataFrame.Rect df)
    (e : addTotalColumn df = some df') :
    addTotalColumn df' = some df' := by
  obtain ⟨idxs, totals, h1, h2, rfl⟩ := addTotalColumn_some_elim df df' e
  have hfacts := fund_idxs_facts df idxs h1
  have hF2 : List.Forall₂ (fun r t => rowSumAt r idxs = some t) df.rows totals :=
    (mapOpt_eq_some_iff _ _ _).mp h2
  cases hc : colPos df.cols totalColName with
  | some k =>
    have hck : df.cols.getD k "" = totalColName := colPos_getD _ _ _ hc
    have hkne : ∀ i ∈ idxs, k ≠ i := by
      intro i hi heq
      rw [heq] at hck
      exact (hfacts i hi).2 hck
    have hdf' : df.setColumn totalColName (totals.map Val.num) =
        ⟨df.cols, List.zipWith (fun r v => r.set k v) df.rows (totals.map Val.num)⟩ := by
      unfold DataFrame.setColumn
      rw [hc]
    rw [hdf']
    have h1' : colIdxs?
        (⟨df.cols, List.zipWith (fun r v => r.set k v) df.rows (totals.map Val.num)⟩ :
          DataFrame) fundColumns = some idxs := h1
    have h2' : mapOpt (fun r => rowSumAt r idxs)
        (List.zipWith (fun r v => r.set k v) df.rows (totals.map Val.num)) = some totals :=
      (mapOpt_eq_some_iff _ _ _).mpr (forall₂_rowSum_set idxs k hkne df.rows totals hF2)
    simp only [addTotalColumn, h1', h2']
    refine congrArg some ?_
    unfold DataFrame.setColumn
    simp only [hc]
    rw [zipWith_set_set]
  | none =>
    have hfresh : totalColName ∉ df.cols := (colPos_none_iff _ _).mp hc
    have hdf' : df.setColumn totalColName (totals.map Val.num) =
        ⟨df.cols ++ [totalColName],
          List.zipWith (fun r v => r ++ [v]) df.rows (totals.map Val.num)⟩ := by
      unfold DataFrame.setColumn
      rw [hc]
    rw [hdf']
    have hlt : ∀ i ∈ idxs, i < df.cols.length := fun i hi => (hfacts i hi).1
    have h1f : List.Forall₂ (fun f i => colPos df.cols f = some i) fundColumns idxs := by
      rw [colIdxs?, mapOpt_eq_some_iff] at h1
      exact h1
    have h1' : colIdxs?
        (⟨df.cols ++ [totalColName],
          List.zipWith (fun r v => r ++ [v]) df.rows (totals.map Val.num)⟩ :
          DataFrame) fundColumns = some idxs := by
      show mapOpt (colPos (df.cols ++ [totalColName])) fundColumns = some idxs
      rw [mapOpt_eq_some_iff]
      exact h1f.imp (fun f i hfi => colPos_append_of_some _ _ _ _ hfi)
    have h2' : mapOpt (fun r => rowSumAt r idxs)
        (List.zipWith (fun r v => r ++ [v]) df.rows (totals.map Val.num)) = some totals :=
      (mapOpt_eq_some_iff _ _ _).mpr
        (forall₂_rowSum_append idxs df.cols.length hlt df.rows totals hrect hF2)
    simp only [addTotalColumn, h1', h2']
    refine congrArg some ?_
    unfold DataFrame.setColumn
    simp only [colPos_append_self df.cols totalColName hfresh]
    rw [zipWith_append_set df.cols.length df.rows (totals.map Val.num) hrect]

/-- Witness for the amended C3 at a concrete table. -/
theorem aggregator_idempotent_witness :
    (DataFrame.Rect resTestDf ∧ addTotalColumn resTestDf = some resTestDfTot) ∧
    addTotalColumn resTestDfTot = some resTestDfTot :=
  ⟨⟨by intro r hr; fin_cases hr; rfl, by decide⟩,
    aggregator_idempotent resTestDf resTestDfTot
      (by intro r hr; fin_cases hr; rfl) (by decide)⟩

/-! ## Sheet-write characterisation -/

theorem getCell_setCell (s : Sheet) (r c r' c' : Nat) (v : Val) :
    (s.setCell r c v).getCell r' c' =
      if (r', c') = (r, c) then v else s.getCell r' c' := by
  by_cases h : (r, c) = (r', c')
  · rw [if_pos h.symm]
    simp [Sheet.setCell, Sheet.getCell, List.find?, h]
  · rw [if_neg (fun hh => h hh.symm)]
    unfold Sheet.setCell Sheet.getCell
    rw [List.find?_cons_of_neg _ (by simp only [decide_eq_true_eq]; exact h)]

theorem getCell_writeRowFrom (vs : List Val) (s : Sheet) (r c0 r' c' : Nat) :
    (writeRowFrom s r c0 vs).getCell r' c' =
      if r' = r ∧ c0 ≤ c' ∧ c' < c0 + vs.length then vs.getD (c' - c0) .na
      else s.getCell r' c' := by
  induction vs generalizing s c0 with
  | nil =>
    rw [writeRowFrom, if_neg]
    rintro ⟨-, h1, h2⟩
    simp only [List.length_nil] at h2
    omega
  | cons v vs ih =>
    rw [writeRowFrom, ih, getCell_setCell]
    by_cases h1 : r' = r ∧ c0 + 1 ≤ c' ∧ c' < c0 + 1 + vs.length
    · rw [if_pos h1, if_pos ⟨h1.1, by omega, by simp only [List.length_cons]; omega⟩]
      have hc : c' - c0 = (c' - (c0 + 1)) + 1 := by omega
      rw [hc, List.getD_cons_succ]
    · rw [if_neg h1]
      by_cases h3 : (r', c') = (r, c0)
      · rw [if_pos h3]
        obtain ⟨hr, hc⟩ := Prod.mk.injEq .. ▸ h3
        rw [if_pos ⟨hr, by omega, by simp only [List.length_cons]; omega⟩]
        rw [hc]
        simp
      · rw [if_neg h3, if_neg]
        rintro ⟨ha, hb, hcc⟩
        simp only [List.length_cons] at hcc
        have hne : c' ≠ c0 := fun hh => h3 (by rw [ha, hh])
        exact h1 ⟨ha, by omega, by omega⟩

theorem getCell_writeRowsFrom (rws : List (List Val)) (s : Sheet) (r0 r' c' : Nat) :
    (writeRowsFrom s r0 rws).getCell r' c' =
      if r0 ≤ r' ∧ r' < r0 + rws.length ∧ 1 ≤ c' ∧
          c' < 1 + (rws.getD (r' - r0) []).length then
        (rws.getD (r' - r0) []).getD (c' - 1) .na
      else s.getCell r' c' := by
  induction rws generalizing s r0 with
  | nil =>
    rw [writeRowsFrom, if_neg]
    rintro ⟨h1, h2, -⟩
    simp only [List.length_nil] at h2
    omega
  | cons row rest ih =>
    rw [writeRowsFrom, ih, getCell_writeRowFrom]
    by_cases h1 : r0 + 1 ≤ r' ∧ r' < r0 + 1 + rest.length ∧ 1 ≤ c' ∧
        c' < 1 + (rest.getD (r' - (r0 + 1)) []).length
    · rw [if_pos h1]
      have hd : (row :: rest).getD (r' - r0) [] = rest.getD (r' - (r0 + 1)) [] := by
        have : r' - r0 = (r' - (r0 + 1)) + 1 := by omega
        rw [this, List.getD_cons_succ]
      rw [if_pos]
      · rw [hd]
      · refine ⟨by omega, by simp only [List.length_cons]; omega, h1.2.2.1, ?_⟩
        rw [hd]
        exact h1.2.2.2
    · rw [if_neg h1]
      by_cases h2 : r' = r0 ∧ 1 ≤ c' ∧ c' < 1 + row.length
      · rw [if_pos h2, if_pos]
        · have : r' - r0 = 0 := by omega
          rw [this, List.getD_cons_zero]
        · have hz : r' - r0 = 0 := by omega
          refine ⟨by omega, by simp only [List.length_cons]; omega, h2.2.1, ?_⟩
          rw [hz, List.getD_cons_zero]
          exact h2.2.2
      · rw [if_neg h2, if_neg]
        rintro ⟨ha, hb, hc, hd⟩
        simp only [List.length_cons] at hb
        by_cases hr : r' = r0
        · rw [hr] at hd
          simp only [Nat.sub_self, List.getD_cons_zero] at hd
          exact h2 ⟨hr, hc, hd⟩
        · have hge : r0 + 1 ≤ r' := by omega
          have : r' - r0 = (r' - (r0 + 1)) + 1 := by omega
          rw [this, List.getD_cons_succ] at hd
          exact h1 ⟨hge, by omega, hc, hd⟩

theorem getCell_emptySheet (nm : String) (r c : Nat) :
    (emptySheet nm).getCell r c = .na := rfl

/-- C8: the sheet writer copies each table verbatim — for each of the
three loaded tables a new sheet is appended whose cell `(r, c)` is the
table's record `r-1`, field `c-1` (1-based from row 1, column 1, in
original row and column order), every other cell is empty, and no header
row is emitted (the column names are never written). -/
theorem data_sheets_verbatim (wb : Workbook) (facultyDf degreesDf researchDf : DataFrame) :
    (createDataSheets wb facultyDf degreesDf researchDf).sheets =
      wb.sheets ++ [sheetOfTable "Faculty Data" facultyDf.rows,
        sheetOfTable "Degrees Data" degreesDf.rows,
        sheetOfTable "Research Data" researchDf.rows] ∧
    ∀ (nm : String) (rows : List (List Val)) (r c : Nat),
      (sheetOfTable nm rows).getCell r c =
        if 1 ≤ r ∧ 1 ≤ c then (rows.getD (r - 1) []).getD (c - 1) .na else .na := by
  constructor
  · simp [createDataSheets, Workbook.addSheet, List.append_assoc]
  · intro nm rows r c
    unfold sheetOfTable
    rw [getCell_writeRowsFrom]
    by_cases h : 1 ≤ r ∧ r < 1 + rows.length ∧ 1 ≤ c ∧ c < 1 + (rows.getD (r - 1) []).length
    · rw [if_pos h, if_pos ⟨h.1, h.2.2.1⟩]
    · rw [if_neg h, getCell_emptySheet]
      by_cases h2 : 1 ≤ r ∧ 1 ≤ c
      · rw [if_pos h2]
        rcases Nat.lt_or_ge (r - 1) rows.length with hr | hr
        · have hc : (rows.getD (r - 1) []).length ≤ c - 1 := by
            by_contra hcc
            push_neg at hcc
            exact h ⟨h2.1, by omega, h2.2, by omega⟩
          rw [List.getD_eq_default _ _ hc]
        · rw [List.getD_eq_default _ _ hr]
          simp
      · rw [if_neg h2]

/-! ## Lookups sheet: institution set -/

theorem getCell_writeNamesFrom (ns : List String) (s : Sheet) (r0 r c : Nat) :
    (writeNamesFrom s r0 ns).getCell r c =
      if c = 1 ∧ r0 ≤ r ∧ r < r0 + ns.length then .str (ns.getD (r - r0) "")
      else s.getCell r c := by
  induction ns generalizing s r0 with
  | nil =>
    rw [writeNamesFrom, if_neg]
    rintro ⟨-, h1, h2⟩
    simp only [List.length_nil] at h2
    omega
  | cons n ns ih =>
    rw [writeNamesFrom, ih, getCell_setCell]
    by_cases h1 : c = 1 ∧ r0 + 1 ≤ r ∧ r < r0 + 1 + ns.length
    · rw [if_pos h1, if_pos ⟨h1.1, by omega, by simp only [List.length_cons]; omega⟩]
      have hr : r - r0 = (r - (r0 + 1)) + 1 := by omega
      rw [hr, List.getD_cons_succ]
    · rw [if_neg h1]
      by_cases h3 : (r, c) = (r0, 1)
      · rw [if_pos h3]
        obtain ⟨hr, hc⟩ := Prod.mk.injEq .. ▸ h3
        rw [if_pos ⟨hc, by omega, by simp only [List.length_cons]; omega⟩]
        rw [hr]
        simp
      · rw [if_neg h3, if_neg]
        rintro ⟨ha, hb, hcc⟩
        simp only [List.length_cons] at hcc
        have hne : r ≠ r0 := fun hh => h3 (by rw [ha, hh])
        exact h1 ⟨ha, by omega, by omega⟩

theorem mapOpt_valStr_map (names : List String) :
    mapOpt valStr? (names.map Val.str) = some names := by
  induction names with
  | nil => rfl
  | cons n ns ih => simp [mapOpt, valStr?, ih]

theorem uniqueSortedNames_eq (df : DataFrame) (names : List String)
    (hcol : columnVals df "School Name" = some (names.map Val.str)) :
    uniqueSortedNames df =
      some ((names.dedup).insertionSort (fun a b => strLexLe a b = true)) := by
  unfold uniqueSortedNames
  simp only [hcol, mapOpt_valStr_map]

theorem charsLe_total : ∀ as bs : List Char, charsLe as bs = true ∨ charsLe bs as = true
  | [], _ => by left; rfl
  | _ :: _, [] => by right; rfl
  | a :: as, b :: bs => by
    by_cases h1 : a.toNat < b.toNat
    · left; simp [charsLe, h1]
    · by_cases h2 : b.toNat < a.toNat
      · right; simp [charsLe, h2]
      · rcases charsLe_total as bs with h | h
        · left; simpa [charsLe, h1, h2] using h
        · right; simpa [charsLe, h1, h2] using h

theorem charsLe_trans : ∀ as bs cs : List Char,
    charsLe as bs = true → charsLe bs cs = true → charsLe as cs = true
  | [], _, _ => by intro _ _; rfl
  | _ :: _, [], _ => by intro h _; cases h
  | _ :: _, _ :: _, [] => by intro _ h; cases h
  | a :: as, b :: bs, c :: cs => by
    intro h1 h2
    simp only [charsLe] at h1 h2 ⊢
    by_cases hab : a.toNat < b.toNat
    · by_cases hbc : b.toNat < c.toNat
      · rw [if_pos (show a.toNat < c.toNat by omega)]
      · rw [if_neg hbc] at h2
        by_cases hcb : c.toNat < b.toNat
        · rw [if_pos hcb] at h2; cases h2
        · rw [if_pos (show a.toNat < c.toNat by omega)]
    · rw [if_neg hab] at h1
      by_cases hba : b.toNat < a.toNat
      · rw [if_pos hba] at h1; cases h1
      · rw [if_neg hba] at h1
        by_cases hbc : b.toNat < c.toNat
        · rw [if_pos (show a.toNat < c.toNat by omega)]
        · rw [if_neg hbc] at h2
          by_cases hcb : c.toNat < b.toNat
          · rw [if_pos hcb] at h2; cases h2
          · rw [if_neg hcb] at h2
            rw [if_neg (show ¬a.toNat < c.toNat by omega),
              if_neg (show ¬c.toNat < a.toNat by omega)]
            exact charsLe_trans as bs cs h1 h2

/-- C4: the lookups sheet holds exactly the distinct institution names
of the faculty table, sorted ascending with no duplicates, as a single
column in rows `2..N+1`, with the label `Valid Institutions` in row 1
and every other cell empty. -/
theorem lookups_sheet_spec (df : DataFrame) (names us : List String)
    (hcol : columnVals df "School Name" = some (names.map Val.str))
    (hus : uniqueSortedNames df = some us) :
    (us.Sorted (fun a b => strLexLe a b = true) ∧ us.Nodup ∧ (∀ x, x ∈ us ↔ x ∈ names)) ∧
    (lookupsSheetOf us).getCell 1 1 = .str "Valid Institutions" ∧
    (∀ k, k < us.length → (lookupsSheetOf us).getCell (k + 2) 1 = .str (us.getD k "")) ∧
    (∀ r, us.length + 1 < r → (lookupsSheetOf us).getCell r 1 = .na) ∧
    (∀ r c, c ≠ 1 → (lookupsSheetOf us).getCell r c = .na) := by
  rw [uniqueSortedNames_eq df names hcol] at hus
  injection hus with hus
  haveI : IsTotal String (fun a b => strLexLe a b = true) :=
    ⟨fun a b => charsLe_total a.data b.data⟩
  haveI : IsTrans String (fun a b => strLexLe a b = true) :=
    ⟨fun a b c => charsLe_trans a.data b.data c.data⟩
  refine ⟨⟨?_, ?_, ?_⟩, ?_, ?_, ?_, ?_⟩
  · rw [← hus]
    exact List.sorted_insertionSort _ _
  · rw [← hus]
    exact (List.perm_insertionSort _ _).nodup_iff.mpr names.nodup_dedup
  · intro x
    rw [← hus, (List.perm_insertionSort _ _).mem_iff, List.mem_dedup]
  · unfold lookupsSheetOf
    rw [getCell_writeNamesFrom, if_neg (by rintro ⟨-, h, -⟩; omega), getCell_setCell,
      if_pos rfl]
  · intro k hk
    unfold lookupsSheetOf
    rw [getCell_writeNamesFrom, if_pos ⟨rfl, by omega, by omega⟩]
    have : k + 2 - 2 = k := by omega
    rw [this]
  · intro r hr
    unfold lookupsSheetOf
    rw [getCell_writeNamesFrom, if_neg (by rintro ⟨-, -, h⟩; omega), getCell_setCell,
      if_neg (by rintro h; injection h with h1 h2; omega), getCell_emptySheet]
  · intro r c hc
    unfold lookupsSheetOf
    rw [getCell_writeNamesFrom, if_neg (by rintro ⟨h, -⟩; exact hc h), getCell_setCell,
      if_neg (by rintro h; injection h with h1 h2; exact hc h2), getCell_emptySheet]

/-- Witness for C4 at a concrete two-institution faculty table. -/
theorem lookups_sheet_spec_witness :
    (columnVals facTestDf "School Name" = some (["A U", "B U"].map Val.str) ∧
      uniqueSortedNames facTestDf = some ["A U", "B U"]) ∧
    ((["A U", "B U"] : List String).Sorted (fun a b => strLexLe a b = true) ∧
      (["A U", "B U"] : List String).Nodup ∧
      (∀ x, x ∈ (["A U", "B U"] : List String) ↔ x ∈ (["A U", "B U"] : List String))) ∧
    (lookupsSheetOf ["A U", "B U"]).getCell 1 1 = .str "Valid Institutions" ∧
    (∀ k, k < (["A U", "B U"] : List String).length →
      (lookupsSheetOf ["A U", "B U"]).getCell (k + 2) 1 =
        .str ((["A U", "B U"] : List String).getD k "")) ∧
    (∀ r, (["A U", "B U"] : List String).length + 1 < r →
      (lookupsSheetOf ["A U", "B U"]).getCell r 1 = .na) ∧
    (∀ r c, c ≠ 1 → (lookupsSheetOf ["A U", "B U"]).getCell r c = .na) :=
  ⟨⟨by decide, by decide⟩,
    lookups_sheet_spec facTestDf ["A U", "B U"] ["A U", "B U"] (by decide) (by decide)⟩

/-! ## Workbook sheet inventory -/

theorem name_setCell (s : Sheet) (r c : Nat) (v : Val) :
    (s.setCell r c v).name = s.name := rfl

theorem name_writeRowFrom (vs : List Val) (s : Sheet) (r c : Nat) :
    (writeRowFrom s r c vs).name = s.name := by
  induction vs generalizing s c with
  | nil => rfl
  | cons v vs ih => rw [writeRowFrom, ih, name_setCell]

theorem name_writeRowsFrom (rws : List (List Val)) (s : Sheet) (r : Nat) :
    (writeRowsFrom s r rws).name = s.name := by
  induction rws generalizing s r with
  | nil => rfl
  | cons row rest ih => rw [writeRowsFrom, ih, name_writeRowFrom]

theorem name_sheetOfTable (nm : String) (rows : List (List Val)) :
    (sheetOfTable nm rows).name = nm := by
  rw [sheetOfTable, name_writeRowsFrom]
  rfl

theorem name_writeNamesFrom (ns : List String) (s : Sheet) (r : Nat) :
    (writeNamesFrom s r ns).name = s.name := by
  induction ns generalizing s r with
  | nil => rfl
  | cons n ns ih => rw [writeNamesFrom, ih, name_setCell]

theorem name_lookupsSheetOf (us : List String) :
    (lookupsSheetOf us).name = "Lookups" := by
  rw [lookupsSheetOf, name_writeNamesFrom]
  rfl

theorem name_acadDashboard (us : List String) :
    (createAcademicDashboard us).name = "Academic Dashboard" := rfl

theorem name_resDashboard (us : List String) :
    (createResearchDashboard us).name = "Research Dashboard" := rfl

/-- C2 counterexample: a concrete successful run yields a workbook of
seven sheets — the default `Sheet` created by `openpyxl.Workbook()` is
never removed and precedes the six named sheets — so the workbook does
not contain exactly the six claimed sheets. -/
theorem workbook_six_sheets_refuted :
    (createDashboardWorkbook facTestDf degTestDf resTestDf).map Workbook.sheetNames =
      some ["Sheet", "Faculty Data", "Degrees Data", "Research Data", "Lookups",
        "Academic Dashboard", "Research Dashboard"] ∧
    (createDashboardWorkbook facTestDf degTestDf resTestDf).map
        (fun wb => wb.sheets.length) = some 7 ∧
    (7 : Nat) ≠ 6 ∧
    ¬((createDashboardWorkbook facTestDf degTestDf resTestDf).map Workbook.sheetNames =
      some ["Faculty Data", "Degrees Data", "Research Data", "Lookups",
        "Academic Dashboard", "Research Dashboard"]) := by decide

/-- C2 (amended): every workbook the generator produces has exactly
seven sheets: the default `Sheet` first, then `Faculty Data`,
`Degrees Data`, `Research Data`, `Lookups`, `Academic Dashboard` and
`Research Dashboard`, in that creation order, and no other sheet. -/
theorem workbook_sheet_names (f d g : DataFrame) (wb : Workbook)
    (h : createDashboardWorkbook f d g = some wb) :
    wb.sheetNames = ["Sheet", "Faculty Data", "Degrees Data", "Research Data",
      "Lookups", "Academic Dashboard", "Research Dashboard"] := by
  unfold createDashboardWorkbook at h
  cases h1 : addTotalColumn g with
  | none => simp only [h1] at h; exact Option.noConfusion h
  | some g2 =>
    simp only [h1] at h
    cases h2 : uniqueSortedNames f with
    | none => simp only [h2] at h; exact Option.noConfusion h
    | some us =>
      simp only [h2, Option.some.injEq] at h
      subst h
      simp [Workbook.sheetNames, Workbook.addSheet, createDataSheets, Workbook.new,
        name_sheetOfTable, name_lookupsSheetOf, name_acadDashboard, name_resDashboard,
        emptySheet]

/-- The concrete workbook produced from the test tables. -/
def wbTest : Workbook :=
  (createDashboardWorkbook facTestDf degTestDf resTestDf).getD ⟨[]⟩

/-- Witness for the amended C2. -/
theorem workbook_sheet_names_witness :
    createDashboardWorkbook facTestDf degTestDf resTestDf = some wbTest ∧
    wbTest.sheetNames = ["Sheet", "Faculty Data", "Degrees Data", "Research Data",
      "Lookups", "Academic Dashboard", "Research Dashboard"] :=
  ⟨by rfl, workbook_sheet_names facTestDf degTestDf resTestDf wbTest (by rfl)⟩

/-! ## Dashboard layout -/

/-- The dashboard cell writes do not depend on the institution list:
`unique_institutions` only enters the data-validation source range. -/
theorem acad_cells_const (us : List String) :
    (createAcademicDashboard us).cells = (createAcademicDashboard []).cells := rfl

theorem res_cells_const (us : List String) :
    (createResearchDashboard us).cells = (createResearchDashboard []).cells := rfl

theorem getCell_congr (s t : Sheet) (h : s.cells = t.cells) (r c : Nat) :
    s.getCell r c = t.getCell r c := by
  unfold Sheet.getCell
  rw [h]

theorem getCell_na_of_row_ge (s : Sheet) (n : Nat)
    (hb : ∀ p ∈ s.cells, p.1.1 < n) (r c : Nat) (hr : n ≤ r) :
    s.getCell r c = .na := by
  unfold Sheet.getCell
  cases hf : s.cells.find? (fun p => p.1 = (r, c)) with
  | none => rfl
  | some p =>
    exfalso
    have hmem := List.mem_of_find?_eq_some hf
    have hpred := List.find?_some hf
    simp only [decide_eq_true_eq] at hpred
    have hlt := hb p hmem
    rw [hpred] at hlt
    simp only at hlt
    omega

/-- C5: for every institution list (including the empty one), each
dashboard's metrics table is exactly one header row (row 13) plus
exactly six data rows (rows 14-19, one per selector slot): the header
cells hold the header labels, every metric cell of the six data rows is
populated, and everything from row 20 down is empty. -/
theorem dashboard_metrics_six_rows (us : List String) :
    (∀ c, c < 5 →
      (createAcademicDashboard us).getCell 13 (c + 1) = .str (acadHeaders.getD c "")) ∧
    (∀ j c, j < 6 → c < 5 →
      (createAcademicDashboard us).getCell (14 + j) (c + 1) ≠ .na) ∧
    (∀ r c, 20 ≤ r → (createAcademicDashboard us).getCell r c = .na) ∧
    (∀ c, c < 4 →
      (createResearchDashboard us).getCell 13 (c + 1) = .str (resHeaders.getD c "")) ∧
    (∀ j c, j < 6 → c < 4 →
      (createResearchDashboard us).getCell (14 + j) (c + 1) ≠ .na) ∧
    (∀ r c, 20 ≤ r → (createResearchDashboard us).getCell r c = .na) := by
  have hA : ∀ r c, (createAcademicDashboard us).getCell r c =
      (createAcademicDashboard []).getCell r c :=
    fun r c => getCell_congr _ _ (acad_cells_const us) r c
  have hR : ∀ r c, (createResearchDashboard us).getCell r c =
      (createResearchDashboard []).getCell r c :=
    fun r c => getCell_congr _ _ (res_cells_const us) r c
  refine ⟨?_, ?_, ?_, ?_, ?_, ?_⟩
  · have h : ∀ c, c < 5 →
        (createAcademicDashboard []).getCell 13 (c + 1) = .str (acadHeaders.getD c "") := by
      decide
    intro c hc
    rw [hA]
    exact h c hc
  · have h : ∀ j, j < 6 → ∀ c, c < 5 →
        (createAcademicDashboard []).getCell (14 + j) (c + 1) ≠ .na := by
      decide
    intro j c hj hc
    rw [hA]
    exact h j hj c hc
  · have hb : ∀ p ∈ (createAcademicDashboard []).cells, p.1.1 < 20 := by decide
    intro r c hr
    rw [hA]
    exact getCell_na_of_row_ge _ 20 hb r c hr
  · have h : ∀ c, c < 4 →
        (createResearchDashboard []).getCell 13 (c + 1) = .str (resHeaders.getD c "") := by
      decide
    intro c hc
    rw [hR]
    exact h c hc
  · have h : ∀ j, j < 6 → ∀ c, c < 4 →
        (createResearchDashboard []).getCell (14 + j) (c + 1) ≠ .na := by
      decide
    intro j c hj hc
    rw [hR]
    exact h j hj c hc
  · have hb : ∀ p ∈ (createResearchDashboard []).cells, p.1.1 < 20 := by decide
    intro r c hr
    rw [hR]
    exact getCell_na_of_row_ge _ 20 hb r c hr

/-- Witness for C5 at the empty institution list. -/
theorem dashboard_metrics_six_rows_witness :
    (0 < 5 ∧ 0 < 6 ∧ 20 ≤ 25) ∧
    (createAcademicDashboard []).getCell 13 (0 + 1) = .str (acadHeaders.getD 0 "") ∧
    (createAcademicDashboard []).getCell (14 + 0) (0 + 1) ≠ .na ∧
    (createResearchDashboard []).getCell 25 3 = .na :=
  ⟨⟨by decide, by decide, by decide⟩,
    (dashboard_metrics_six_rows []).1 0 (by decide),
    (dashboard_metrics_six_rows []).2.1 0 0 (by decide) (by decide),
    (dashboard_metrics_six_rows []).2.2.2.2.2 25 3 (by decide)⟩

/-- C6 counterexample: the academic dashboard's chart has three data
series (columns 3-5, the ratio columns only — not four columns, and not
the `Total Faculty` column 2), and the research dashboard's chart has a
single data series (column 4, `Research $ per Faculty` — not three
columns). -/
theorem chart_plots_all_metrics_refuted :
    (createAcademicDashboard []).charts.map (fun ch => ch.series.length) = [3] ∧
    (createResearchDashboard []).charts.map (fun ch => ch.series.length) = [1] ∧
    (createAcademicDashboard []).charts.map
      (fun ch => ch.series.map RefArea.minCol) = [[3, 4, 5]] ∧
    (createResearchDashboard []).charts.map
      (fun ch => ch.series.map RefArea.minCol) = [[4]] ∧
    2 ∉ [3, 4, 5] ∧ (3 : Nat) ≠ 4 ∧ (1 : Nat) ≠ 3 := by decide

/-- C6 (amended): each dashboard embeds exactly one bar chart anchored
at `G2`; the academic chart plots the three ratio columns (3-5) and the
research chart plots only the `Research $ per Faculty` column (4), each
series spanning rows 13-19 (header row included as series title) with
institution-name categories from column 1, rows 14-19; neither chart
plots the `Total Faculty` column. -/
theorem dashboard_charts_spec (us : List String) :
    (createAcademicDashboard us).charts =
      [⟨"Faculty to Degree Ratios by Institution", 10,
        [⟨3, 13, 19⟩, ⟨4, 13, 19⟩, ⟨5, 13, 19⟩], ⟨1, 14, 19⟩, 15, 25, "G2"⟩] ∧
    (createResearchDashboard us).charts =
      [⟨"Research Dollars per Faculty by Institution", 10,
        [⟨4, 13, 19⟩], ⟨1, 14, 19⟩, 15, 25, "G2"⟩] :=
  ⟨rfl, rfl⟩

/-! ## Column widths -/

theorem le_foldl_max_init (l : List Nat) (a : Nat) : a ≤ l.foldl max a := by
  induction l generalizing a with
  | nil => exact le_refl a
  | cons y ys ih => exact le_trans (le_max_left a y) (ih (max a y))

theorem le_foldl_max (l : List Nat) (a x : Nat) (h : x ∈ l) : x ≤ l.foldl max a := by
  induction l generalizing a with
  | nil => cases h
  | cons y ys ih =>
    rcases List.mem_cons.mp h with rfl | h
    · exact le_trans (le_max_right a x) (le_foldl_max_init ys (max a x))
    · exact ih (max a y) h

theorem colWidths_styleDashboard (s : Sheet) (a b : Nat) :
    (styleDashboard s a b).colWidths =
      (List.range' 1 s.maxColIdx).map (fun c => (c, colMaxLen s c + 2)) := rfl

theorem mem_range'_one (n r : Nat) : r ∈ List.range' 1 n ↔ 1 ≤ r ∧ r < 1 + n := by
  rw [List.mem_range']
  constructor
  · rintro ⟨i, hi, rfl⟩
    omega
  · rintro ⟨h1, h2⟩
    exact ⟨r - 1, by omega, by omega⟩

set_option maxRecDepth 40000 in
/-- C9: every column width assigned by the styling step is at least the
length of the stringified value of every cell in the used rows of that
column (an unwritten cell reads as `None`), both for an arbitrary sheet
and for the two generated dashboard sheets. -/
theorem styled_width_ge :
    (∀ (s : Sheet) (a b : Nat), ∀ p ∈ (styleDashboard s a b).colWidths,
      ∀ r ∈ List.range' 1 s.maxRowIdx, (pyStr (s.getCell r p.1)).length ≤ p.2) ∧
    (∀ us : List String, ∀ p ∈ (createAcademicDashboard us).colWidths,
      ∀ r ∈ List.range' 1 (createAcademicDashboard us).maxRowIdx,
        (pyStr ((createAcademicDashboard us).getCell r p.1)).length ≤ p.2) ∧
    (∀ us : List String, ∀ p ∈ (createResearchDashboard us).colWidths,
      ∀ r ∈ List.range' 1 (createResearchDashboard us).maxRowIdx,
        (pyStr ((createResearchDashboard us).getCell r p.1)).length ≤ p.2) := by
  refine ⟨?_, ?_, ?_⟩
  · intro s a b p hp r hr
    rw [colWidths_styleDashboard] at hp
    obtain ⟨c, -, rfl⟩ := List.mem_map.mp hp
    show (pyStr (s.getCell r c)).length ≤ colMaxLen s c + 2
    have hx : (pyStr (s.getCell r c)).length ∈
        (List.range' 1 s.maxRowIdx).map (fun r => (pyStr (s.getCell r c)).length) :=
      List.mem_map_of_mem _ hr
    have hle : (pyStr (s.getCell r c)).length ≤ colMaxLen s c := le_foldl_max _ 0 _ hx
    omega
  · intro us p hp r hr
    have hcw : (createAcademicDashboard us).colWidths =
        (createAcademicDashboard []).colWidths := rfl
    have hmr : (createAcademicDashboard us).maxRowIdx =
        (createAcademicDashboard []).maxRowIdx := rfl
    rw [hcw] at hp
    rw [hmr] at hr
    rw [getCell_congr _ _ (acad_cells_const us) r p.1]
    revert hp hr
    have h : ∀ p ∈ (createAcademicDashboard []).colWidths,
        ∀ r ∈ List.range' 1 (createAcademicDashboard []).maxRowIdx,
          (pyStr ((createAcademicDashboard []).getCell r p.1)).length ≤ p.2 := by decide
    intro hp hr
    exact h p hp r hr
  · intro us p hp r hr
    have hcw : (createResearchDashboard us).colWidths =
        (createResearchDashboard []).colWidths := rfl
    have hmr : (createResearchDashboard us).maxRowIdx =
        (createResearchDashboard []).maxRowIdx := rfl
    rw [hcw] at hp
    rw [hmr] at hr
    rw [getCell_congr _ _ (res_cells_const us) r p.1]
    revert hp hr
    have h : ∀ p ∈ (createResearchDashboard []).colWidths,
        ∀ r ∈ List.range' 1 (createResearchDashboard []).maxRowIdx,
          (pyStr ((createResearchDashboard []).getCell r p.1)).length ≤ p.2 := by decide
    intro hp hr
    exact h p hp r hr

/-- A one-cell sheet used to witness the width bound. -/
def widthTestSheet : Sheet := sheetOfTable "T" [[.str "abc"]]

/-- Witness for C9. -/
theorem styled_width_ge_witness :
    ((1, 5) ∈ (styleDashboard widthTestSheet 1 1).colWidths ∧
      1 ∈ List.range' 1 widthTestSheet.maxRowIdx) ∧
    (pyStr (widthTestSheet.getCell 1 (1, 5).1)).length ≤ (1, 5).2 :=
  ⟨⟨by decide, by decide⟩,
    styled_width_ge.1 widthTestSheet 1 1 (1, 5) (by decide) 1 (by decide)⟩

/-! ## Absent-institution formula semantics -/

theorem sumifsVal_absent (critCol sumCol : List Val) (cr : Exv)
    (habs : ∀ v ∈ critCol, valMatches v cr = false) :
    sumifsVal critCol sumCol cr = 0 := by
  unfold sumifsVal
  rw [List.filter_eq_nil_iff.mpr ?_]
  · rfl
  · rintro ⟨x, y⟩ hp
    simp only [Bool.not_eq_true]
    exact habs x (List.of_mem_zip hp).1

set_option maxRecDepth 40000 in
/-- C7: when a selector cell of a metrics row (rows 14-19) resolves to
an institution name absent from the criterion columns of the referenced
data sheets, every dependent metric formula generated for that row
evaluates to 0 and never to an error value: the metric cells hold
exactly the rendered formulas, each `SUMIFS` filter matches zero rows
(so the sums are 0), and each division — now 0/0 — raises an error
caught by its `IFERROR` fallback 0.  The engine state `env` supplies the
selector value (`A` column), and the values of the `B`/`C` cells as the
values of their generated formulas. -/
theorem absent_institution_formulas (env : EvEnv) (N : String) (r : Nat) (us : List String)
    (hA : env.dashCell "A" r = .ok (.str N))
    (hFac : ∀ v ∈ env.dataCol "Faculty Data" "B", valMatches v (.str N) = false)
    (hDeg : ∀ v ∈ env.dataCol "Degrees Data" "C", valMatches v (.str N) = false)
    (hResd : ∀ v ∈ env.dataCol "Research Data" "C", valMatches v (.str N) = false)
    (hB : env.dashCell "B" r = evalFx env (totalFacultyFx r))
    (hC : env.dashCell "C" r = evalFx env (resTotalFx r))
    (hr1 : 14 ≤ r) (hr2 : r ≤ 19) :
    ((createAcademicDashboard us).getCell r 2 = .str (totalFacultyStr r) ∧
     (createAcademicDashboard us).getCell r 3 = .str (acadRatioBStr r) ∧
     (createAcademicDashboard us).getCell r 4 = .str (acadRatioMStr r) ∧
     (createAcademicDashboard us).getCell r 5 = .str (acadRatioDStr r) ∧
     (createResearchDashboard us).getCell r 2 = .str (totalFacultyStr r) ∧
     (createResearchDashboard us).getCell r 3 = .str (resTotalStr r) ∧
     (createResearchDashboard us).getCell r 4 = .str (resPerFacStr r)) ∧
    (totalFacultyStr r = "=" ++ render (totalFacultyFx r) ∧
     acadRatioBStr r = "=" ++ render (acadRatioBFx r) ∧
     acadRatioMStr r = "=" ++ render (acadRatioMFx r) ∧
     acadRatioDStr r = "=" ++ render (acadRatioDFx r) ∧
     resTotalStr r = "=" ++ render (resTotalFx r) ∧
     resPerFacStr r = "=" ++ render (resPerFacFx r)) ∧
    (evalFx env (totalFacultyFx r) = .ok (.num 0) ∧
     evalFx env (acadRatioBFx r) = .ok (.num 0) ∧
     evalFx env (acadRatioMFx r) = .ok (.num 0) ∧
     evalFx env (acadRatioDFx r) = .ok (.num 0) ∧
     evalFx env (resTotalFx r) = .ok (.num 0) ∧
     evalFx env (resPerFacFx r) = .ok (.num 0)) := by
  have hsF1 := sumifsVal_absent (env.dataCol "Faculty Data" "B")
    (env.dataCol "Faculty Data" "D") (.str N) hFac
  have hsF2 := sumifsVal_absent (env.dataCol "Faculty Data" "B")
    (env.dataCol "Faculty Data" "E") (.str N) hFac
  have hsF3 := sumifsVal_absent (env.dataCol "Faculty Data" "B")
    (env.dataCol "Faculty Data" "F") (.str N) hFac
  have hB0 : evalFx env (totalFacultyFx r) = .ok (.num 0) := by
    simp only [totalFacultyFx, evalFx, hA, hsF1, hsF2, hsF3]
    norm_num
  have hBcell : env.dashCell "B" r = .ok (.num 0) := by rw [hB, hB0]
  have hsDE := sumifsVal_absent (env.dataCol "Degrees Data" "C")
    (env.dataCol "Degrees Data" "E") (.str N) hDeg
  have hsDF := sumifsVal_absent (env.dataCol "Degrees Data" "C")
    (env.dataCol "Degrees Data" "F") (.str N) hDeg
  have hsDG := sumifsVal_absent (env.dataCol "Degrees Data" "C")
    (env.dataCol "Degrees Data" "G") (.str N) hDeg
  have hRatB : evalFx env (acadRatioBFx r) = .ok (.num 0) := by
    have hdiv : evalFx env
        (.div (.cellRef "B" r) (.sumifs "Degrees Data" "E" "C" (.selRef r))) = .error () := by
      simp [evalFx, hBcell, hA, hsDE]
    rw [show evalFx env (acadRatioBFx r) =
        (match evalFx env
            ((Fx.cellRef "B" r).div (Fx.sumifs "Degrees Data" "E" "C" (Fx.selRef r))) with
          | .error _ => Except.ok (Exv.num 0)
          | .ok v => Except.ok v) from rfl, hdiv]
  have hRatM : evalFx env (acadRatioMFx r) = .ok (.num 0) := by
    have hdiv : evalFx env
        (.div (.cellRef "B" r) (.sumifs "Degrees Data" "F" "C" (.selRef r))) = .error () := by
      simp [evalFx, hBcell, hA, hsDF]
    rw [show evalFx env (acadRatioMFx r) =
        (match evalFx env
            ((Fx.cellRef "B" r).div (Fx.sumifs "Degrees Data" "F" "C" (Fx.selRef r))) with
          | .error _ => Except.ok (Exv.num 0)
          | .ok v => Except.ok v) from rfl, hdiv]
  have hRatD : evalFx env (acadRatioDFx r) = .ok (.num 0) := by
    have hdiv : evalFx env
        (.div (.cellRef "B" r) (.sumifs "Degrees Data" "G" "C" (.selRef r))) = .error () := by
      simp [evalFx, hBcell, hA, hsDG]
    rw [show evalFx env (acadRatioDFx r) =
        (match evalFx env
            ((Fx.cellRef "B" r).div (Fx.sumifs "Degrees Data" "G" "C" (Fx.selRef r))) with
          | .error _ => Except.ok (Exv.num 0)
          | .ok v => Except.ok v) from rfl, hdiv]
  have hsRD := sumifsVal_absent (env.dataCol "Research Data" "C")
    (env.dataCol "Research Data" "D") (.str N) hResd
  have hsRE := sumifsVal_absent (env.dataCol "Research Data" "C")
    (env.dataCol "Research Data" "E") (.str N) hResd
  have hsRF := sumifsVal_absent (env.dataCol "Research Data" "C")
    (env.dataCol "Research Data" "F") (.str N) hResd
  have hsRG := sumifsVal_absent (env.dataCol "Research Data" "C")
    (env.dataCol "Research Data" "G") (.str N) hResd
  have hsRH := sumifsVal_absent (env.dataCol "Research Data" "C")
    (env.dataCol "Research Data" "H") (.str N) hResd
  have hsRI := sumifsVal_absent (env.dataCol "Research Data" "C")
    (env.dataCol "Research Data" "I") (.str N) hResd
  have hsRJ := sumifsVal_absent (env.dataCol "Research Data" "C")
    (env.dataCol "Research Data" "J") (.str N) hResd
  have hRes0 : evalFx env (resTotalFx r) = .ok (.num 0) := by
    simp only [resTotalFx, evalFx, hA, hsRD, hsRE, hsRF, hsRG, hsRH, hsRI, hsRJ]
    norm_num
  have hCcell : env.dashCell "C" r = .ok (.num 0) := by rw [hC, hRes0]
  have hPerFac : evalFx env (resPerFacFx r) = .ok (.num 0) := by
    have hdiv : evalFx env (.div (.cellRef "C" r) (.cellRef "B" r)) = .error () := by
      simp [evalFx, hCcell, hBcell]
    rw [show evalFx env (resPerFacFx r) =
        (match evalFx env ((Fx.cellRef "C" r).div (Fx.cellRef "B" r)) with
          | .error _ => Except.ok (Exv.num 0)
          | .ok v => Except.ok v) from rfl, hdiv]
  refine ⟨?_, ?_, hB0, hRatB, hRatM, hRatD, hRes0, hPerFac⟩
  · simp only [getCell_congr _ _ (acad_cells_const us), getCell_congr _ _ (res_cells_const us)]
    interval_cases r <;> exact (by decide)
  · interval_cases r <;> exact (by decide)

set_option maxRecDepth 40000 in
/-- Witness for C7 at selector row 14 with the absent institution
`Z U` over empty data columns. -/
theorem absent_institution_formulas_witness :
    (testEnv.dashCell "A" 14 = .ok (.str "Z U") ∧
     (∀ v ∈ testEnv.dataCol "Faculty Data" "B", valMatches v (.str "Z U") = false) ∧
     (∀ v ∈ testEnv.dataCol "Degrees Data" "C", valMatches v (.str "Z U") = false) ∧
     (∀ v ∈ testEnv.dataCol "Research Data" "C", valMatches v (.str "Z U") = false) ∧
     testEnv.dashCell "B" 14 = evalFx testEnv (totalFacultyFx 14) ∧
     testEnv.dashCell "C" 14 = evalFx testEnv (resTotalFx 14) ∧
     14 ≤ 14 ∧ 14 ≤ 19) ∧
    (((createAcademicDashboard []).getCell 14 2 = .str (totalFacultyStr 14) ∧
      (createAcademicDashboard []).getCell 14 3 = .str (acadRatioBStr 14) ∧
      (createAcademicDashboard []).getCell 14 4 = .str (acadRatioMStr 14) ∧
      (createAcademicDashboard []).getCell 14 5 = .str (acadRatioDStr 14) ∧
      (createResearchDashboard []).getCell 14 2 = .str (totalFacultyStr 14) ∧
      (createResearchDashboard []).getCell 14 3 = .str (resTotalStr 14) ∧
      (createResearchDashboard []).getCell 14 4 = .str (resPerFacStr 14)) ∧
     (totalFacultyStr 14 = "=" ++ render (totalFacultyFx 14) ∧
      acadRatioBStr 14 = "=" ++ render (acadRatioBFx 14) ∧
      acadRatioMStr 14 = "=" ++ render (acadRatioMFx 14) ∧
      acadRatioDStr 14 = "=" ++ render (acadRatioDFx 14) ∧
      resTotalStr 14 = "=" ++ render (resTotalFx 14) ∧
      resPerFacStr 14 = "=" ++ render (resPerFacFx 14)) ∧
     (evalFx testEnv (totalFacultyFx 14) = .ok (.num 0) ∧
      evalFx testEnv (acadRatioBFx 14) = .ok (.num 0) ∧
      evalFx testEnv (acadRatioMFx 14) = .ok (.num 0) ∧
      evalFx testEnv (acadRatioDFx 14) = .ok (.num 0) ∧
      evalFx testEnv (resTotalFx 14) = .ok (.num 0) ∧
      evalFx testEnv (resPerFacFx 14) = .ok (.num 0))) := by
  have hA' : testEnv.dashCell "A" 14 = .ok (.str "Z U") := by rfl
  have habsF : ∀ v ∈ testEnv.dataCol "Faculty Data" "B", valMatches v (.str "Z U") = false :=
    fun v hv => absurd hv (List.not_mem_nil v)
  have habsD : ∀ v ∈ testEnv.dataCol "Degrees Data" "C", valMatches v (.str "Z U") = false :=
    fun v hv => absurd hv (List.not_mem_nil v)
  have habsR : ∀ v ∈ testEnv.dataCol "Research Data" "C", valMatches v (.str "Z U") = false :=
    fun v hv => absurd hv (List.not_mem_nil v)
  have hB' : testEnv.dashCell "B" 14 = evalFx testEnv (totalFacultyFx 14) := by
    simp [testEnv, evalFx, totalFacultyFx, sumifsVal]
  have hC' : testEnv.dashCell "C" 14 = evalFx testEnv (resTotalFx 14) := by
    simp [testEnv, evalFx, resTotalFx, sumifsVal]
  exact ⟨⟨hA', habsF, habsD, habsR, hB', hC', le_refl 14, by norm_num⟩,
    absent_institution_formulas testEnv "Z U" 14 [] hA' habsF habsD habsR hB' hC'
      (le_refl 14) (by norm_num)⟩
